import Mathlib

/-!
Verification development for `src/hdfs/hdfs.cpp` (Mesos HDFS client).

The file shallowly embeds the subprocess result aggregator (`result`), the
exit-code interpretation of `HDFS::exists`, the `hadoop fs -du` output
parser (`HDFS::du`), the command construction of the five filesystem
operations, the path normalizer (`HDFS::absolutePath`) and the client
construction (`HDFS::create`).  Library helpers that the source pulls in
from stout (`strings::tokenize`, `strings::startsWith`, `path::join`,
`numify`) and from the C library (`WIFEXITED`, `WEXITSTATUS`) are not part
of the repository's own files; they are modelled from the specification's
description of their behaviour, as noted on each definition.
-/

namespace HdfsSpec

/-! ## String helpers -/

/-- Whether `sub` occurs as a contiguous run inside the character list. -/
def hasSub (sub : List Char) : List Char → Bool
  | [] => sub.isEmpty
  | c :: cs => sub.isPrefixOf (c :: cs) || hasSub sub cs

/-- Whether the string `sub` occurs as a substring of `s`. -/
def strContains (s sub : String) : Bool := hasSub sub.data s.data

/-- Modelled from the spec: stout `strings::startsWith`, a plain prefix test. -/
def startsWith (s pre : String) : Bool := pre.data.isPrefixOf s.data

/-- Remove one leading separator, as stout `strings::remove(s, "/", PREFIX)`. -/
def stripLeadSlash (s : String) : String :=
  match s.data with
  | c :: rest => if c = '/' then ⟨rest⟩ else s
  | [] => s

/-- Remove one trailing separator, as stout `strings::remove(s, "/", SUFFIX)`. -/
def stripTrailSlash (s : String) : String :=
  if s.data ≠ [] ∧ s.data.getLast? = some '/' then ⟨s.data.dropLast⟩ else s

/-- Modelled from the spec: stout `path::join` of two components — strip one
trailing separator from the first, one leading separator from the second,
and glue them with `"/"`.  Joining to the empty base therefore prefixes a
separator ("effectively prefixed to become absolute"). -/
def pathJoin (p1 p2 : String) : String :=
  stripTrailSlash p1 ++ "/" ++ stripLeadSlash p2

/-! ## Subprocess signals and the result aggregator (`result`, lines 53-94) -/

/-- A settled asynchronous signal, the state a `Future` is in once `await`
has fired its continuation: ready with a value, failed with a message, or
discarded (cancelled). -/
inductive Signal (α : Type) where
  | ready : α → Signal α
  | failed : String → Signal α
  | discarded : Signal α
deriving DecidableEq, Repr

/-- `Future::isReady`. -/
def Signal.isReady : Signal α → Bool
  | .ready _ => true
  | _ => false

/-- `Future::isFailed`. -/
def Signal.isFailed : Signal α → Bool
  | .failed _ => true
  | _ => false

/-- `Future::failure` (meaningful only on a failed signal). -/
def Signal.failure : Signal α → String
  | .failed m => m
  | _ => ""

/-- `Future::get` (meaningful only on a ready signal). -/
def Signal.get [Inhabited α] : Signal α → α
  | .ready a => a
  | _ => default

/-- The aggregate of a finished subprocess: exit status (absent when the
process could not be reaped), stdout text, stderr text (`CommandResult`,
lines 45-50).  The raw wait status is a non-negative machine integer. -/
structure CommandResult where
  status : Option Nat
  out : String
  err : String
deriving DecidableEq, Repr

/-- The continuation of `result` (lines 62-93): given the three settled
signals produced by `await(s.status(), io::read(out), io::read(err))`,
either fail identifying the first signal that did not resolve, or build
the `CommandResult`. -/
def result (status : Signal (Option Nat)) (output error : Signal String) :
    Except String CommandResult :=
  if !status.isReady then
    .error ("Failed to get the exit status of the subprocess: " ++
      (if status.isFailed then status.failure else "discarded"))
  else if !output.isReady then
    .error ("Failed to read stdout from the subprocess: " ++
      (if output.isFailed then output.failure else "discarded"))
  else if !error.isReady then
    .error ("Failed to read stderr from the subprocess: " ++
      (if error.isFailed then error.failure else "discarded"))
  else
    .ok { status := status.get, out := output.get, err := error.get }

/-! ## Path normalization (`HDFS::absolutePath`, lines 266-274) -/

/-- `HDFS::absolutePath`: scheme-qualified or already-absolute paths are
returned unchanged; every other path is joined to the empty base. -/
def absolutePath (hdfsPath : String) : String :=
  if startsWith hdfsPath "hdfs://" || startsWith hdfsPath "/" then
    hdfsPath
  else
    pathJoin "" hdfsPath

/-! ## Exit-code interpretation of `HDFS::exists` (lines 138-158) -/

/-- Modelled from the spec: the POSIX normal-termination test on a raw wait
status (low seven bits zero). -/
def wifexited (status : Nat) : Bool := status % 128 == 0

/-- Modelled from the spec: the POSIX exit-code extraction from a raw wait
status (second byte). -/
def wexitstatus (status : Nat) : Nat := status / 256 % 256

/-- The failure message of `HDFS::exists` (lines 153-157): the stringified
raw status and the captured stdout and stderr, embedded literally. -/
def unexpectedMsg (s : Nat) (out err : String) : String :=
  "Unexpected result from the subprocess: status='" ++ toString s ++
    "', stdout='" ++ out ++ "', stderr='" ++ err ++ "'"

/-- The continuation `HDFS::exists` chains onto the aggregated result
(lines 139-157): missing status means the subprocess was not reaped; a
normal exit with code 0 or 1 is the boolean answer; anything else is the
descriptive "Unexpected result" failure. -/
def existsCheck (r : CommandResult) : Except String Bool :=
  match r.status with
  | none => .error "Failed to reap the subprocess"
  | some s =>
    if wifexited s && wexitstatus s == 0 then .ok true
    else if wifexited s && wexitstatus s == 1 then .ok false
    else .error (unexpectedMsg s r.out r.err)

/-! ## Tokenization and number parsing (stout helpers used by `HDFS::du`) -/

/-- Modelled from the spec: stout `strings::tokenize` — split at every
delimiter character, runs of consecutive delimiters collapse, no empty
tokens.  `acc` holds the current token's characters in reverse. -/
def tokenizeAux (delims : List Char) : List Char → List Char → List String
  | [], acc => if acc = [] then [] else [⟨acc.reverse⟩]
  | c :: cs, acc =>
    if c ∈ delims then
      if acc = [] then tokenizeAux delims cs []
      else ⟨acc.reverse⟩ :: tokenizeAux delims cs []
    else tokenizeAux delims cs (c :: acc)

/-- Modelled from the spec: stout `strings::tokenize` on a string. -/
def tokenize (s : String) (delims : List Char) : List String :=
  tokenizeAux delims s.data []

/-- Fold decimal digits into a number. -/
def digitsToNat : List Char → Nat → Nat
  | [], acc => acc
  | c :: cs, acc => digitsToNat cs (acc * 10 + (c.toNat - 48))

/-- Modelled from the spec: stout `numify` on an unsigned type — parse a
non-negative decimal integer, failing on empty or non-numeric input. -/
def numify (s : String) : Except String Nat :=
  if s.data ≠ [] ∧ s.data.all Char.isDigit then
    .ok (digitsToNat s.data 0)
  else
    .error ("Failed to convert '" ++ s ++ "' into a number")

/-! ## `HDFS::du` (lines 162-204) -/

/-- The qualifying-line test of `HDFS::du` (line 191): exactly two
space-tokenized fields and the second equal to the normalized path. -/
def qualifies (line path : String) : Bool :=
  (tokenize line [' ']).length == 2 && (tokenize line [' ']).getD 1 "" == path

/-- The scan loop of `HDFS::du` (lines 186-203): visit the newline-token
lines in order; at the first qualifying line, parse its first field as the
byte count (a parse failure is the "unexpected format" error); when no
line qualifies, fail with the raw output embedded. -/
def duScan (path raw : String) : List String → Except String Nat
  | [] => .error ("HDFS du returned an unexpected format: '" ++ raw ++ "'")
  | line :: rest =>
    if qualifies line path then
      match numify ((tokenize line [' ']).getD 0 "") with
      | .error e => .error ("HDFS du returned unexpected format: " ++ e)
      | .ok n => .ok n
    else duScan path raw rest

/-- `HDFS::du`'s parsing of the shell output against a normalized path. -/
def duParse (out path : String) : Except String Nat :=
  duScan path out (tokenize out ['\n'])

/-- `HDFS::du` (lines 162-204): the shell invocation's outcome is passed in
(`shellOut`); a shell-level error is wrapped, otherwise the output is
parsed against the normalized query path. -/
def du (shellOut : Except String String) (hdfsPath : String) : Except String Nat :=
  match shellOut with
  | .error e => .error ("HDFS du failed: " ++ e)
  | .ok out => duParse out (absolutePath hdfsPath)

/-- The tokenization the specification describes for `du` lines: fields are
maximal runs of non-whitespace characters (every whitespace character is a
delimiter, not only the space). -/
def tokenizeWs (s : String) : List String :=
  tokenizeAux [' ', '\t', '\n', '\r', '\x0b', '\x0c'] s.data []

/-- The qualifying-line test as the specification words it: whitespace
tokenization instead of space tokenization. -/
def qualifiesWs (line path : String) : Bool :=
  (tokenizeWs line).length == 2 && (tokenizeWs line).getD 1 "" == path

/-- The `du` scan loop as the specification words it. -/
def duScanWs (path raw : String) : List String → Except String Nat
  | [] => .error ("HDFS du returned an unexpected format: '" ++ raw ++ "'")
  | line :: rest =>
    if qualifiesWs line path then
      match numify ((tokenizeWs line).getD 0 "") with
      | .error e => .error ("HDFS du returned unexpected format: " ++ e)
      | .ok n => .ok n
    else duScanWs path raw rest

/-- `du` parsing as the specification words it (whitespace tokenization). -/
def duParseWs (out path : String) : Except String Nat :=
  duScanWs path out (tokenize out ['\n'])

/-! ## Command construction of the five operations -/

/-- The argument vector of `HDFS::exists` (lines 127-132). -/
def existsInvocation (path : String) : List String :=
  ["hadoop", "fs", "-test", "-e", absolutePath path]

/-- The shell string format of `HDFS::du` (lines 166-167), before the
`" 2>&1"` redirection is appended. -/
def duCommand (hadoop path : String) : String :=
  hadoop ++ " fs -du '" ++ path ++ "'"

/-- The shell command `HDFS::du` executes (lines 164-176). -/
def duInvocation (hadoop hdfsPath : String) : String :=
  duCommand hadoop (absolutePath hdfsPath) ++ " 2>&1"

/-- The shell command `HDFS::rm` executes (lines 209-210). -/
def rmInvocation (hadoop path : String) : String :=
  hadoop ++ " fs -rm '" ++ absolutePath path ++ "'"

/-- The format template of `HDFS::copyFromLocal` (lines 232-233). -/
def copyFromLocalCommand (hadoop from_ to_ : String) : String :=
  hadoop ++ " fs -copyFromLocal '" ++ from_ ++ "' '" ++ to_ ++ "'"

/-- The outcome of the command-construction stage of a copy operation:
either an error produced before any external command exists, or the shell
command that gets executed. -/
inductive CopyOutcome where
  | failure : String → CopyOutcome
  | invoke : String → CopyOutcome
deriving DecidableEq, Repr

/-- `HDFS::copyFromLocal` (lines 224-244) up to the shell invocation: when
the local source does not exist (`fromExists` is the `os::exists(from)`
answer) the operation fails before any command is built; otherwise the
command interpolates the raw local source and the normalized destination. -/
def copyFromLocal (fromExists : Bool) (hadoop from_ to_ : String) : CopyOutcome :=
  if !fromExists then
    .failure ("Failed to find " ++ from_)
  else
    .invoke (copyFromLocalCommand hadoop from_ (absolutePath to_))

/-- The shell command `HDFS::copyToLocal` executes (lines 249-252): the
remote source is normalized, the local destination is interpolated raw. -/
def copyToLocalInvocation (hadoop from_ to_ : String) : String :=
  hadoop ++ " fs -copyToLocal '" ++ absolutePath from_ ++ "' '" ++ to_ ++ "'"

/-! ## Client construction (`HDFS::create`, lines 97-122) -/

/-- `HDFS::create` (lines 97-122): resolve the hadoop executable — explicit
argument first, else `HADOOP_HOME` joined with `bin/hadoop`, else the bare
name — then run the `version` liveness check through the shell (`shell`
stands for `os::shell`'s outcome on a given command) and return the
resolved executable exactly when the check succeeds. -/
def create (hadoopArg : Option String) (hadoopHome : Option String)
    (shell : String → Except String String) : Except String String :=
  let hadoop :=
    match hadoopArg with
    | some h => h
    | none =>
      match hadoopHome with
      | some home => pathJoin (pathJoin home "bin") "hadoop"
      | none => "hadoop"
  match shell (hadoop ++ " version 2>&1") with
  | .error e => .error e
  | .ok _ => .ok hadoop

/-! ## Helper lemmas -/

/-- A list is a prefix of itself followed by anything. -/
theorem isPrefixOf_self_append : ∀ (l q : List Char), l.isPrefixOf (l ++ q) = true
  | [], _ => by simp [List.isPrefixOf]
  | a :: as, q => by simp [List.isPrefixOf, isPrefixOf_self_append as q]

/-- Extending the larger list on the right preserves the prefix test. -/
theorem isPrefixOf_append_right (l m q : List Char) (h : l.isPrefixOf m = true) :
    l.isPrefixOf (m ++ q) = true := by
  rw [List.isPrefixOf_iff_prefix] at h ⊢
  exact h.trans (List.prefix_append m q)

/-- A substring occurrence at the very front. -/
theorem hasSub_here (s q : List Char) : hasSub s (s ++ q) = true := by
  cases s with
  | nil => cases q <;> simp [hasSub, List.isPrefixOf]
  | cons a as => simp [hasSub, isPrefixOf_self_append]

/-- A substring occurrence survives prepending. -/
theorem hasSub_skip (p s l : List Char) (h : hasSub s l = true) :
    hasSub s (p ++ l) = true := by
  induction p with
  | nil => simpa using h
  | cons c cs ih => simp [hasSub, ih]

/-- A substring occurrence survives appending. -/
theorem hasSub_extend (s a b : List Char) (h : hasSub s a = true) :
    hasSub s (a ++ b) = true := by
  induction a with
  | nil =>
    simp [hasSub] at h
    subst h
    cases b <;> simp [hasSub, List.isPrefixOf]
  | cons c cs ih =>
    simp only [hasSub, Bool.or_eq_true] at h ⊢
    rcases h with h | h
    · exact Or.inl (isPrefixOf_append_right _ _ _ h)
    · exact Or.inr (ih h)

/-- String-level: a substring occurrence at the front of a concatenation. -/
theorem strContains_hereL (sub q : String) : strContains (sub ++ q) sub = true := by
  simp only [strContains, String.data_append]
  exact hasSub_here _ _

/-- String-level: prepending text preserves a substring occurrence. -/
theorem strContains_skipL (p rest sub : String) (h : strContains rest sub = true) :
    strContains (p ++ rest) sub = true := by
  simp only [strContains, String.data_append]
  exact hasSub_skip _ _ _ h

/-- String-level: appending text preserves a substring occurrence. -/
theorem strContains_extend (a b sub : String) (h : strContains a sub = true) :
    strContains (a ++ b) sub = true := by
  simp only [strContains, String.data_append]
  exact hasSub_extend _ _ _ h

/-- The "Unexpected result" message embeds the stringified status. -/
theorem unexpectedMsg_contains_status (s : Nat) (out err : String) :
    strContains (unexpectedMsg s out err) (toString s) = true := by
  unfold unexpectedMsg
  simp only [String.append_assoc]
  exact strContains_skipL _ _ _ (strContains_hereL _ _)

/-- The "Unexpected result" message embeds the captured stdout. -/
theorem unexpectedMsg_contains_out (s : Nat) (out err : String) :
    strContains (unexpectedMsg s out err) out = true := by
  unfold unexpectedMsg
  simp only [String.append_assoc]
  exact strContains_skipL _ _ _ (strContains_skipL _ _ _
    (strContains_skipL _ _ _ (strContains_hereL _ _)))

/-- The "Unexpected result" message embeds the captured stderr. -/
theorem unexpectedMsg_contains_err (s : Nat) (out err : String) :
    strContains (unexpectedMsg s out err) err = true := by
  unfold unexpectedMsg
  simp only [String.append_assoc]
  exact strContains_skipL _ _ _ (strContains_skipL _ _ _ (strContains_skipL _ _ _
    (strContains_skipL _ _ _ (strContains_skipL _ _ _ (strContains_hereL _ _)))))

/-- A path that does not start with a separator loses nothing. -/
theorem stripLeadSlash_eq (p : String) (h : startsWith p "/" = false) :
    stripLeadSlash p = p := by
  unfold stripLeadSlash
  unfold startsWith at h
  cases hd : p.data with
  | nil => simp
  | cons c rest =>
    rw [hd] at h
    simp only [List.isPrefixOf, List.isPrefixOf.eq_1, Bool.and_eq_false_iff] at h
    simp only []
    have hc : ¬c = '/' := by
      intro hc
      subst hc
      simp [List.isPrefixOf] at h
    simp [hc]

/-- Joining a separator-free path to the empty base prefixes a separator. -/
theorem pathJoin_empty (p : String) (h : startsWith p "/" = false) :
    pathJoin "" p = "/" ++ p := by
  unfold pathJoin
  rw [stripLeadSlash_eq p h]
  rfl

/-- A string extended by a leading separator starts with one. -/
theorem startsWith_slash (p : String) : startsWith ("/" ++ p) "/" = true := by
  have hd : ("/" ++ p).data = '/' :: p.data := by
    rw [String.data_append]; rfl
  simp [startsWith, hd, List.isPrefixOf]

/-- Scheme-qualified or absolute paths are left unchanged by `absolutePath`. -/
theorem absolutePath_qualified (p : String)
    (h : (startsWith p "hdfs://" || startsWith p "/") = true) :
    absolutePath p = p := by
  simp [absolutePath, h]

/-- A bare path is prefixed with a separator by `absolutePath`. -/
theorem absolutePath_bare (p : String)
    (h : (startsWith p "hdfs://" || startsWith p "/") = false) :
    absolutePath p = "/" ++ p := by
  simp only [Bool.or_eq_false_iff] at h
  simp [absolutePath, h.1, h.2, pathJoin_empty p h.2]

/-- `absolutePath` is idempotent. -/
theorem absolutePath_idem (p : String) :
    absolutePath (absolutePath p) = absolutePath p := by
  cases h : (startsWith p "hdfs://" || startsWith p "/") with
  | true => rw [absolutePath_qualified p h]; exact absolutePath_qualified p h
  | false =>
    rw [absolutePath_bare p h]
    exact absolutePath_qualified _ (by simp [startsWith_slash p])

/-- When no line satisfies the qualifying test, the `du` scan reports the
raw output. -/
theorem duScan_find_none (path raw : String) (lines : List String)
    (h : lines.find? (fun l => qualifies l path) = none) :
    duScan path raw lines =
      .error ("HDFS du returned an unexpected format: '" ++ raw ++ "'") := by
  induction lines with
  | nil => rfl
  | cons l rest ih =>
    rw [List.find?_cons] at h
    cases hq : qualifies l path with
    | true => rw [hq] at h; simp at h
    | false =>
      rw [hq] at h
      simp only [duScan, hq, Bool.false_eq_true, if_false]
      exact ih h

/-- The `du` scan is decided by the first qualifying line: its first field
is handed to the number parser and the scan returns that outcome. -/
theorem duScan_find_some (path raw : String) (lines : List String) (L : String)
    (h : lines.find? (fun l => qualifies l path) = some L) :
    duScan path raw lines =
      (match numify ((tokenize L [' ']).getD 0 "") with
        | .error e => .error ("HDFS du returned unexpected format: " ++ e)
        | .ok n => .ok n) := by
  induction lines with
  | nil => simp at h
  | cons l rest ih =>
    rw [List.find?_cons] at h
    cases hq : qualifies l path with
    | true =>
      rw [hq] at h
      simp only [if_pos] at h
      cases h
      simp only [duScan, hq, if_true]
    | false =>
      rw [hq] at h
      simp only [duScan, hq, Bool.false_eq_true, if_false]
      exact ih h

/-! ## Claim theorems -/

/-- C1: when the exit-status, stdout-read and stderr-read signals all resolve
successfully, the aggregator returns the (status, stdout, stderr) triple and
never an error; in particular a zero-exit, zero-output process yields status 0
and empty strings. -/
theorem result_all_ready :
    (∀ (st : Option Nat) (o e : String),
      result (.ready st) (.ready o) (.ready e) = .ok ⟨st, o, e⟩) ∧
    result (.ready (some 0)) (.ready "") (.ready "") = .ok ⟨some 0, "", ""⟩ :=
  ⟨fun _ _ _ => rfl, rfl⟩

/-- C2: when the exit status resolves but the stdout read is discarded, the
aggregate is a failure whose message names the stdout read and says it was
discarded, and mentions neither stderr nor the exit status. -/
theorem result_stdout_discarded :
    ∀ (st : Option Nat) (e : Signal String),
      result (.ready st) .discarded e =
        .error "Failed to read stdout from the subprocess: discarded" ∧
      strContains "Failed to read stdout from the subprocess: discarded" "stdout" = true ∧
      strContains "Failed to read stdout from the subprocess: discarded" "discarded" = true ∧
      strContains "Failed to read stdout from the subprocess: discarded" "stderr" = false ∧
      strContains "Failed to read stdout from the subprocess: discarded" "exit status" = false :=
  fun _ _ => ⟨rfl, by decide, by decide, by decide, by decide⟩

/-- C10: when several signals fail or are discarded, exactly one failure is
reported, in fixed priority: the exit status first, then the stdout read,
then the stderr read — each with its own message and the signal's failure
reason (or "discarded"). -/
theorem result_failure_priority :
    ∀ (m o2 : String) (st : Option Nat) (output error : Signal String),
      result (.failed m) output error =
        .error ("Failed to get the exit status of the subprocess: " ++ m) ∧
      result .discarded output error =
        .error "Failed to get the exit status of the subprocess: discarded" ∧
      result (.ready st) (.failed m) error =
        .error ("Failed to read stdout from the subprocess: " ++ m) ∧
      result (.ready st) .discarded error =
        .error "Failed to read stdout from the subprocess: discarded" ∧
      result (.ready st) (.ready o2) (.failed m) =
        .error ("Failed to read stderr from the subprocess: " ++ m) ∧
      result (.ready st) (.ready o2) .discarded =
        .error "Failed to read stderr from the subprocess: discarded" :=
  fun _ _ _ _ _ => ⟨rfl, rfl, rfl, rfl, rfl, rfl⟩

/-- C3 counterexample: with the exit status missing, `exists`'s error is the
bare "Failed to reap the subprocess" — it does not embed the captured stdout
or stderr, contradicting the claim that every non-0/1 outcome's error carries
status, stdout and stderr. -/
theorem existsCheck_missing_status_counterexample :
    existsCheck ⟨none, "OUT", "ERR"⟩ = .error "Failed to reap the subprocess" ∧
    strContains "Failed to reap the subprocess" "OUT" = false ∧
    strContains "Failed to reap the subprocess" "ERR" = false :=
  ⟨rfl, by decide, by decide⟩

/-- C3(amended): a normal exit with code 0 yields true and with code 1 yields
false; any other exit code or abnormal termination yields an error embedding
the literal status, stdout and stderr; a missing exit status yields the plain
"Failed to reap the subprocess" error, which carries none of them. -/
theorem existsCheck_classification :
    ∀ (s : Nat) (out err : String),
      existsCheck ⟨none, out, err⟩ = .error "Failed to reap the subprocess" ∧
      (wifexited s = true → wexitstatus s = 0 →
        existsCheck ⟨some s, out, err⟩ = .ok true) ∧
      (wifexited s = true → wexitstatus s = 1 →
        existsCheck ⟨some s, out, err⟩ = .ok false) ∧
      ((wifexited s = false ∨ (wexitstatus s ≠ 0 ∧ wexitstatus s ≠ 1)) →
        existsCheck ⟨some s, out, err⟩ = .error (unexpectedMsg s out err) ∧
        strContains (unexpectedMsg s out err) (toString s) = true ∧
        strContains (unexpectedMsg s out err) out = true ∧
        strContains (unexpectedMsg s out err) err = true) := by
  intro s out err
  refine ⟨rfl, ?_, ?_, ?_⟩
  · intro h1 h2
    simp [existsCheck, h1, h2]
  · intro h1 h2
    simp [existsCheck, h1, h2]
  · intro h
    have hmsg : existsCheck ⟨some s, out, err⟩ = .error (unexpectedMsg s out err) := by
      rcases h with hW | ⟨h0, h1⟩
      · simp [existsCheck, hW]
      · simp [existsCheck, h0, h1]
    exact ⟨hmsg, unexpectedMsg_contains_status s out err,
      unexpectedMsg_contains_out s out err, unexpectedMsg_contains_err s out err⟩

/-- Witness for C3(amended): exit code 0 (raw status 0) yields true, exit
code 1 (raw status 256) yields false, exit code 2 (raw status 512) yields the
descriptive error embedding status, stdout and stderr. -/
theorem existsCheck_classification_witness :
    existsCheck ⟨some 0, "", ""⟩ = .ok true ∧
    existsCheck ⟨some 256, "", ""⟩ = .ok false ∧
    (existsCheck ⟨some 512, "o", "e"⟩ = .error (unexpectedMsg 512 "o" "e") ∧
      strContains (unexpectedMsg 512 "o" "e") (toString 512) = true ∧
      strContains (unexpectedMsg 512 "o" "e") "o" = true ∧
      strContains (unexpectedMsg 512 "o" "e") "e" = true) :=
  ⟨(existsCheck_classification 0 "" "").2.1 (by decide) (by decide),
   (existsCheck_classification 256 "" "").2.2.1 (by decide) (by decide),
   (existsCheck_classification 512 "o" "e").2.2.2 (Or.inr ⟨by decide, by decide⟩)⟩

/-- C4 counterexample: on output whose data line separates the two fields with
a tab, the whitespace-run tokenization the claim describes yields byte count
1234, but the code tokenizes on the space character only and reports the
format error instead. -/
theorem du_whitespace_tokenization_counterexample :
    duParseWs "1234\t/data/file\n" "/data/file" = .ok 1234 ∧
    du (.ok "1234\t/data/file\n") "/data/file" =
      .error "HDFS du returned an unexpected format: '1234\t/data/file\n'" ∧
    du (.ok "1234\t/data/file\n") "/data/file" ≠
      duParseWs "1234\t/data/file\n" "/data/file" :=
  ⟨rfl, rfl, fun h => nomatch h⟩

/-- C4(amended): du scans the output line by line, tokenizing each line on the
space character with runs of consecutive separators collapsed; the first line
with exactly two fields whose second equals the normalized path decides the
outcome, its first field parsed as a non-negative integer being the byte
count; in particular the noisy example yields 1234. -/
theorem du_first_qualifying_line :
    (∀ (out path L : String) (n : Nat),
      (tokenize out ['\n']).find? (fun l => qualifies l (absolutePath path)) = some L →
      numify ((tokenize L [' ']).getD 0 "") = .ok n →
      du (.ok out) path = .ok n) ∧
    du (.ok "1234 /data/file\nWARN: noisy line\n") "/data/file" = .ok 1234 := by
  constructor
  · intro out path L n hFind hNum
    show duParse out (absolutePath path) = .ok n
    unfold duParse
    rw [duScan_find_some _ _ _ _ hFind, hNum]
  · rfl

/-- Witness for C4(amended): a qualifying first line among noise. -/
theorem du_first_qualifying_line_witness :
    du (.ok "WARN: chatter\n77 /a/b\nrest\n") "/a/b" = .ok 77 :=
  du_first_qualifying_line.1 "WARN: chatter\n77 /a/b\nrest\n" "/a/b" "77 /a/b" 77 rfl rfl

/-- C5: with the shell command succeeding, du fails exactly when no line
qualifies — then the message embeds the raw output — or the first qualifying
line's first field is not a non-negative integer — then an "unexpected format"
error; a qualifying line with a numeric first field never yields an error. -/
theorem du_format_error_iff :
    ∀ (out path : String),
      ((tokenize out ['\n']).find? (fun l => qualifies l (absolutePath path)) = none →
        du (.ok out) path =
          .error ("HDFS du returned an unexpected format: '" ++ out ++ "'") ∧
        strContains ("HDFS du returned an unexpected format: '" ++ out ++ "'") out = true) ∧
      (∀ (L e : String),
        (tokenize out ['\n']).find? (fun l => qualifies l (absolutePath path)) = some L →
        numify ((tokenize L [' ']).getD 0 "") = .error e →
        du (.ok out) path = .error ("HDFS du returned unexpected format: " ++ e) ∧
        strContains ("HDFS du returned unexpected format: " ++ e) "unexpected format" = true) ∧
      (∀ (L : String) (n : Nat),
        (tokenize out ['\n']).find? (fun l => qualifies l (absolutePath path)) = some L →
        numify ((tokenize L [' ']).getD 0 "") = .ok n →
        ∀ (msg : String), du (.ok out) path ≠ .error msg) := by
  intro out path
  refine ⟨?_, ?_, ?_⟩
  · intro hFind
    constructor
    · show duParse out (absolutePath path) = _
      unfold duParse
      exact duScan_find_none _ _ _ hFind
    · simp only [String.append_assoc]
      exact strContains_skipL _ _ _ (strContains_hereL _ _)
  · intro L e hFind hNum
    constructor
    · show duParse out (absolutePath path) = _
      unfold duParse
      rw [duScan_find_some _ _ _ _ hFind, hNum]
    · exact strContains_extend _ _ _ (by decide)
  · intro L n hFind hNum msg
    show duParse out (absolutePath path) ≠ _
    unfold duParse
    rw [duScan_find_some _ _ _ _ hFind, hNum]
    exact fun h => nomatch h

/-- Witness for C5: output with no qualifying line gives the raw-output error;
a qualifying line with the non-numeric first field "abc" gives the
"unexpected format" error. -/
theorem du_format_error_iff_witness :
    (du (.ok "WARN: noise\n") "/data/file" =
        .error ("HDFS du returned an unexpected format: '" ++ "WARN: noise\n" ++ "'") ∧
      strContains ("HDFS du returned an unexpected format: '" ++ "WARN: noise\n" ++ "'")
        "WARN: noise\n" = true) ∧
    (du (.ok "abc /data/file\n") "/data/file" =
        .error ("HDFS du returned unexpected format: " ++
          "Failed to convert 'abc' into a number") ∧
      strContains ("HDFS du returned unexpected format: " ++
          "Failed to convert 'abc' into a number") "unexpected format" = true) :=
  ⟨(du_format_error_iff "WARN: noise\n" "/data/file").1 rfl,
   (du_format_error_iff "abc /data/file\n" "/data/file").2.1 "abc /data/file"
     "Failed to convert 'abc' into a number" rfl rfl⟩

/-- C6: copyFromLocal with a non-existent local source fails with the
"Failed to find <from>" error and never reaches the command invocation. -/
theorem copyFromLocal_missing_source :
    ∀ (hadoop from_ to_ : String),
      copyFromLocal false hadoop from_ to_ = .failure ("Failed to find " ++ from_) ∧
      ∀ (cmd : String), copyFromLocal false hadoop from_ to_ ≠ .invoke cmd :=
  fun _ _ _ => ⟨rfl, fun _ h => nomatch h⟩

/-- C7: path normalization is idempotent — a scheme-qualified or absolute path
is returned unchanged, and normalizing any path twice equals normalizing it
once. -/
theorem absolutePath_idempotent :
    ∀ (p q : String),
      ((startsWith p "hdfs://" || startsWith p "/") = true → absolutePath p = p) ∧
      absolutePath (absolutePath q) = absolutePath q :=
  fun p q => ⟨absolutePath_qualified p, absolutePath_idem q⟩

/-- Witness for C7: a scheme-qualified path, an absolute path, and a bare
path normalized twice. -/
theorem absolutePath_idempotent_witness :
    absolutePath "hdfs://nn/a" = "hdfs://nn/a" ∧
    absolutePath "/a/b" = "/a/b" ∧
    absolutePath (absolutePath "rel/path") = absolutePath "rel/path" :=
  ⟨(absolutePath_idempotent "hdfs://nn/a" "x").1 (by decide),
   (absolutePath_idempotent "/a/b" "x").1 (by decide),
   (absolutePath_idempotent "x" "rel/path").2⟩

/-- C8 counterexample: the local source of copyFromLocal is substituted into
the command unchanged — pre-normalizing it changes the built command, so that
argument is not passed through the resolver; likewise copyToLocal's local
destination. -/
theorem local_path_not_normalized_counterexample :
    copyFromLocal true "hadoop" "a" "/b" =
      .invoke "hadoop fs -copyFromLocal 'a' '/b'" ∧
    absolutePath "a" = "/a" ∧
    copyFromLocal true "hadoop" (absolutePath "a") "/b" ≠
      copyFromLocal true "hadoop" "a" "/b" ∧
    copyToLocalInvocation "hadoop" "/r" (absolutePath "a") ≠
      copyToLocalInvocation "hadoop" "/r" "a" :=
  ⟨rfl, rfl, by decide, by decide⟩

/-- C8(amended): every remote path argument of the five operations is passed
through the resolver — each built invocation is invariant under normalizing
that argument first — while copyFromLocal's local source and copyToLocal's
local destination are substituted unchanged. -/
theorem remote_paths_normalized :
    ∀ (hadoop p from_ to_ : String) (ex : Bool),
      existsInvocation (absolutePath p) = existsInvocation p ∧
      duInvocation hadoop (absolutePath p) = duInvocation hadoop p ∧
      rmInvocation hadoop (absolutePath p) = rmInvocation hadoop p ∧
      copyFromLocal ex hadoop from_ (absolutePath to_) =
        copyFromLocal ex hadoop from_ to_ ∧
      copyToLocalInvocation hadoop (absolutePath from_) to_ =
        copyToLocalInvocation hadoop from_ to_ ∧
      copyFromLocal true hadoop from_ to_ =
        .invoke (copyFromLocalCommand hadoop from_ (absolutePath to_)) ∧
      copyToLocalInvocation hadoop from_ to_ =
        hadoop ++ " fs -copyToLocal '" ++ absolutePath from_ ++ "' '" ++ to_ ++ "'" := by
  intro hadoop p from_ to_ ex
  refine ⟨?_, ?_, ?_, ?_, ?_, rfl, rfl⟩
  · simp [existsInvocation, absolutePath_idem]
  · simp [duInvocation, absolutePath_idem]
  · simp [rmInvocation, absolutePath_idem]
  · simp [copyFromLocal, absolutePath_idem]
  · simp [copyToLocalInvocation, absolutePath_idem]

/-- C9: create resolves the executable in strict priority order — the explicit
argument, else HADOOP_HOME joined with bin/hadoop, else the bare name — runs
the "version" liveness check on it, and returns a construction-time error
exactly when that check fails. -/
theorem create_resolution_order :
    ∀ (h home : String) (sh : String → Except String String) (e o : String),
      (sh (h ++ " version 2>&1") = .error e →
        create (some h) (some home) sh = .error e ∧
        create (some h) none sh = .error e) ∧
      (sh (h ++ " version 2>&1") = .ok o →
        create (some h) (some home) sh = .ok h ∧
        create (some h) none sh = .ok h) ∧
      (sh (pathJoin (pathJoin home "bin") "hadoop" ++ " version 2>&1") = .error e →
        create none (some home) sh = .error e) ∧
      (sh (pathJoin (pathJoin home "bin") "hadoop" ++ " version 2>&1") = .ok o →
        create none (some home) sh = .ok (pathJoin (pathJoin home "bin") "hadoop")) ∧
      (sh "hadoop version 2>&1" = .error e → create none none sh = .error e) ∧
      (sh "hadoop version 2>&1" = .ok o → create none none sh = .ok "hadoop") := by
  intro h home sh e o
  refine ⟨fun hsh => ⟨?_, ?_⟩, fun hsh => ⟨?_, ?_⟩, fun hsh => ?_, fun hsh => ?_,
    fun hsh => ?_, fun hsh => ?_⟩ <;>
    simp [create, hsh]

/-- Witness for C9: the three resolution tiers, each with a succeeding and a
failing liveness check. -/
theorem create_resolution_order_witness :
    create (some "/x/hadoop") (some "/opt") (fun _ => .ok "v") = .ok "/x/hadoop" ∧
    create none (some "/opt") (fun _ => .ok "v") =
      .ok (pathJoin (pathJoin "/opt" "bin") "hadoop") ∧
    create none none (fun _ => .ok "v") = .ok "hadoop" ∧
    create (some "/x/hadoop") none (fun _ => .error "bad") = .error "bad" ∧
    create none (some "/opt") (fun _ => .error "bad") = .error "bad" ∧
    create none none (fun _ => .error "bad") = .error "bad" :=
  ⟨((create_resolution_order "/x/hadoop" "/opt" (fun _ => .ok "v") "e" "v").2.1 rfl).1,
   (create_resolution_order "x" "/opt" (fun _ => .ok "v") "e" "v").2.2.2.1 rfl,
   (create_resolution_order "x" "h" (fun _ => .ok "v") "e" "v").2.2.2.2.2 rfl,
   ((create_resolution_order "/x/hadoop" "h" (fun _ => .error "bad") "bad" "o").1 rfl).2,
   (create_resolution_order "x" "/opt" (fun _ => .error "bad") "bad" "o").2.2.1 rfl,
   (create_resolution_order "x" "h" (fun _ => .error "bad") "bad" "o").2.2.2.2.1 rfl⟩

end HdfsSpec
